import Mathlib

set_option linter.unusedVariables false

/-!
Verification development for the trail-recommendation service (main.py).

Modelling conventions:
* Python strings are lists of characters; Python floats are rationals
  (the program performs no arithmetic on them, it only moves them around).
* The external providers (the generative model, the geocoding endpoint,
  the directions endpoint) are oracles supplied as explicit values or
  functions; a raised network error and a non-OK provider status are
  explicit constructors.
* Each network-facing function also returns the list of provider calls it
  issued, so that claims about calls *not* being made are statable.
-/

/-- Whitespace recognised by Python str.strip (ASCII range; the inputs
handled by the program are ASCII). -/
def isPySpace (c : Char) : Bool :=
  c == ' ' || c == '\t' || c == '\n' || c == '\r' || c == '\x0b' || c == '\x0c'

/-- Python text.strip(): remove leading and trailing whitespace. -/
def pyStrip (t : List Char) : List Char :=
  ((t.dropWhile isPySpace).reverse.dropWhile isPySpace).reverse

/-- Python text.startswith(s). -/
def pyStartsWith (t s : List Char) : Bool := s.isPrefixOf t

/-- Python text.endswith(s). -/
def pyEndsWith (t s : List Char) : Bool := s.reverse.isPrefixOf t.reverse

/-- The markdown fence prefix stripped first at main.py line 46. -/
def fenceJson : List Char := ['\x60', '\x60', '\x60', 'j', 's', 'o', 'n']

/-- The shorter markdown fence of main.py lines 48 and 50. -/
def fence : List Char := ['\x60', '\x60', '\x60']

/-- Lines 46-51 of main.py: drop a leading "```json" fence (7 chars), then
a leading "```" fence (3 chars), then a trailing "```" fence, each only if
present, in this order. -/
def stripFences (t : List Char) : List Char :=
  let t1 := if pyStartsWith t fenceJson then t.drop 7 else t
  let t2 := if pyStartsWith t1 fence then t1.drop 3 else t1
  if pyEndsWith t2 fence then t2.take (t2.length - 3) else t2

/-- Python text.find for a predicate, as an Option instead of -1. -/
def findFirst (p : Char → Bool) : List Char → Option Nat
  | [] => none
  | c :: cs => if p c then some 0 else (findFirst p cs).map (· + 1)

/-- Python text.rfind for a predicate, as an Option instead of -1. -/
def rfindLast (p : Char → Bool) (t : List Char) : Option Nat :=
  (findFirst p t.reverse).map (fun k => t.length - 1 - k)

/-- Recogniser for the opening brace character. -/
def isLB (c : Char) : Bool := c == '\x7b'

/-- Recogniser for the closing brace character. -/
def isRB (c : Char) : Bool := c == '\x7d'

/-- Lines 53-57 of main.py: slice from the first opening brace to the last
closing brace inclusive, only when both are found (start != -1 and
end != 0); otherwise leave the text unchanged. -/
def sliceBraces (t : List Char) : List Char :=
  match findFirst isLB t, rfindLast isRB t with
  | some s, some e => (t.drop s).take (e + 1 - s)
  | _, _ => t

/-- clean_json_response (main.py lines 44-59): strip fences, slice to the
brace span, then strip whitespace. -/
def clean_json_response (t : List Char) : List Char :=
  pyStrip (sliceBraces (stripFences t))

/-- The failure sentinel returned by the naming stage (main.py line 42). -/
def sentinel : List Char := "Recommendation failed".toList

/-- The error message of the error-shaped pipeline result (line 263). -/
def errorMsg : List Char := "Gemini recommendation failed".toList

/-- Outcome of one call to the generative provider: either the first
candidate's text was extracted, or the call / candidate extraction raised
an exception. -/
inductive GenOutcome
  | raise
  | text (t : List Char)
  deriving DecidableEq

/-- Outcome of one mapping-provider HTTP call: OK status with payload,
non-OK status, or a raised request / JSON-decoding error. -/
inductive ApiResult (α : Type)
  | ok (val : α)
  | badStatus
  | reqError
  deriving DecidableEq

/-- A provider location record, with lat and lng fields. -/
structure Loc where
  lat : ℚ
  lng : ℚ
  deriving DecidableEq

/-- One step of a directions leg, with start_location and end_location. -/
structure Step where
  start_location : Loc
  end_location : Loc
  deriving DecidableEq

/-- One leg of a directions route. -/
structure Leg where
  steps : List Step
  deriving DecidableEq

/-- One route of a directions response. -/
structure Route where
  legs : List Leg
  deriving DecidableEq

/-- The payload of an OK directions response. -/
structure DirectionsData where
  routes : List Route
  deriving DecidableEq

/-- The provider calls a function can issue, for call-count reasoning. -/
inductive ProviderCall
  | genName
  | genDetail
  | genWaypoints
  | revGeocode
  | fwdGeocode (label : List Char)
  | keyVerifyCall
  | directionsCall
  deriving DecidableEq

/-- get_trail_name_from_gemini (main.py lines 23-42): the trimmed first
candidate text on success, the sentinel when the generation call or the
candidate extraction raises. The request fields only shape the prompt. -/
def get_trail_name_from_gemini (distance theme : List Char)
    (latitude longitude : ℚ) (gen : GenOutcome) : List Char :=
  match gen with
  | .text t => pyStrip t
  | .raise => sentinel

/-- A parsed JSON object, as an association list of string fields (the
pipeline never reads the parsed detail, so field values stay textual). -/
abbrev JsonDict := List (List Char × List Char)

/-- get_trail_detail_from_gemini (main.py lines 62-79). The json.loads
parse is the oracle `parse` (none = raised ValueError); the generation
call raising, or the parse failing, degrades to the empty dict. -/
def get_trail_detail_from_gemini (gen : GenOutcome)
    (parse : List Char → Option JsonDict) : JsonDict × List ProviderCall :=
  match gen with
  | .raise => ([], [.genDetail])
  | .text t => ((parse (clean_json_response t)).getD [], [.genDetail])

/-- The uncaught exception escaping the waypoints stage (see below). -/
inductive PipelineCrash
  | crash
  deriving DecidableEq

/-- get_trail_waypoints_from_gemini (main.py lines 82-140). The reverse
geocoding call (lines 84-100) is always issued first; its outcome only
shapes the prompt text, which is not modelled. If the generation call (or
the candidate extraction at line 134) raises, the except block at line 139
re-reads response.candidates on whatever 'response' holds - the earlier
requests response, or nothing - and itself raises an uncaught
AttributeError/UnboundLocalError: modelled as a crash. A json.loads
failure after a successful extraction returns []. The oracle `parse`
models json.loads(text).get("waypoints", []): the waypoint list, or none
when json.loads raises. -/
def get_trail_waypoints_from_gemini (revGeo : ApiResult (List Char))
    (gen : GenOutcome) (parse : List Char → Option (List (List Char))) :
    Except PipelineCrash (List (List Char)) × List ProviderCall :=
  match gen with
  | .raise => (.error .crash, [.revGeocode, .genWaypoints])
  | .text t =>
    (.ok ((parse (clean_json_response t)).getD []), [.revGeocode, .genWaypoints])

/-- The per-label loop of get_coordinates_for_waypoints (main.py lines
231-257): geocode each label in order, collecting (lng, lat) pairs; the
first non-OK status or raised request error aborts the whole batch
(none), so the labels after it are never requested. -/
def geocodeBatch (g : List Char → ApiResult Loc) :
    List (List Char) → Option (List (ℚ × ℚ)) × List ProviderCall
  | [] => (some [], [])
  | w :: ws =>
    match g w with
    | .ok loc =>
      ((geocodeBatch g ws).1.map (fun cs => (loc.lng, loc.lat) :: cs),
        .fwdGeocode w :: (geocodeBatch g ws).2)
    | _ => (none, [.fwdGeocode w])

/-- get_coordinates_for_waypoints (main.py lines 227-257): the aborted
batch returns the empty list (an empty input also loops zero times). -/
def get_coordinates_for_waypoints (g : List Char → ApiResult Loc)
    (waypoints : List (List Char)) : List (ℚ × ℚ) × List ProviderCall :=
  ((geocodeBatch g waypoints).1.getD [], (geocodeBatch g waypoints).2)

/-- The inner flattening loop of get_directions_coordinates_from_waypoints
(main.py lines 191-195): per leg, the start coordinate of every step as
(lng, lat), then the last step's end coordinate. A leg with no steps makes
leg["steps"][-1] raise IndexError, which the enclosing try turns into an
empty overall result: modelled as none. -/
def flattenLegs : List Leg → Option (List (ℚ × ℚ))
  | [] => some []
  | leg :: rest =>
    match leg.steps.getLast? with
    | none => none
    | some last =>
      (flattenLegs rest).map (fun cs =>
        leg.steps.map (fun st => (st.start_location.lng, st.start_location.lat))
          ++ [(last.end_location.lng, last.end_location.lat)] ++ cs)

/-- Lines 189-196 of main.py: routes[0] on an empty routes list raises
IndexError, caught by the try, yielding []. -/
def flattenDirections (d : DirectionsData) : List (ℚ × ℚ) :=
  match d.routes with
  | [] => []
  | r :: _ => (flattenLegs r.legs).getD []

/-- get_directions_coordinates_from_waypoints (main.py lines 143-205).
`keyVerify` is the outcome of the key-verification geocoding request
(lines 147-165); `directions` the outcome of the main directions request.
Fewer than 2 waypoints returns [] before any request; a failed key
verification returns [] before the directions request. -/
def get_directions_coordinates_from_waypoints
    (keyVerify : ApiResult Unit) (directions : ApiResult DirectionsData)
    (waypoints : List (List Char)) : List (ℚ × ℚ) × List ProviderCall :=
  if waypoints.length < 2 then ([], [])
  else
    match keyVerify with
    | .ok _ =>
      match directions with
      | .ok d => (flattenDirections d, [.keyVerifyCall, .directionsCall])
      | _ => ([], [.keyVerifyCall, .directionsCall])
    | _ => ([], [.keyVerifyCall])

/-- The request body of the /recommend endpoint (main.py lines 221-225). -/
structure TrailRequest where
  distance : List Char
  theme : List Char
  latitude : ℚ
  longitude : ℚ

/-- The two response shapes of the /recommend endpoint: the error dict of
line 263, or the route_name/coordinates dict of lines 269-272. -/
inductive RecommendResult
  | error (msg : List Char)
  | result (route_name : List Char) (coordinates : List (ℚ × ℚ))
  deriving DecidableEq

/-- The stubbed external world of one request: outcomes for each provider
call the pipeline can make. -/
structure Env where
  nameGen : GenOutcome
  detailGen : GenOutcome
  detailParse : List Char → Option JsonDict
  revGeo : ApiResult (List Char)
  waypointsGen : GenOutcome
  waypointsParse : List Char → Option (List (List Char))
  geocode : List Char → ApiResult Loc

/-- recommend_trail (main.py lines 259-272): name the trail; abort with
the error dict if the name equals the sentinel; otherwise compute (and
discard) the detail, propose waypoints, geocode them pointwise, and
return the name and coordinates. The directions resolver is never
called. A crash in the waypoints stage propagates. -/
def recommend_trail (env : Env) (req : TrailRequest) :
    Except PipelineCrash RecommendResult × List ProviderCall :=
  let trail_name :=
    get_trail_name_from_gemini req.distance req.theme req.latitude req.longitude env.nameGen
  if trail_name = sentinel then
    (.ok (.error errorMsg), [.genName])
  else
    let detailR := get_trail_detail_from_gemini env.detailGen env.detailParse
    let wpR := get_trail_waypoints_from_gemini env.revGeo env.waypointsGen env.waypointsParse
    match wpR.1 with
    | .error c => (.error c, .genName :: (detailR.2 ++ wpR.2))
    | .ok ws =>
      let coordR := get_coordinates_for_waypoints env.geocode ws
      (.ok (.result trail_name coordR.1), .genName :: (detailR.2 ++ wpR.2 ++ coordR.2))

/-- Modelled from the spec: the leg flattening in the spec's words
(section 4.4 step 4: per leg, every step's start coordinate, then the
leg's final end coordinate once, as (longitude, latitude)), for
refinement comparison with flattenLegs. -/
def specFlattenLegs (legs : List Leg) : List (ℚ × ℚ) :=
  legs.flatMap (fun leg =>
    leg.steps.map (fun st => (st.start_location.lng, st.start_location.lat))
      ++ (match leg.steps.getLast? with
          | some last => [(last.end_location.lng, last.end_location.lat)]
          | none => []))

/-- Modelled from the spec: the "step count" of a stubbed directions
response, as the claim C2 words use it (total steps of the returned
route). -/
def specStepCount (d : DirectionsData) : Nat :=
  match d.routes with
  | [] => 0
  | r :: _ => (r.legs.map (fun leg => leg.steps.length)).sum

/-! Concrete sample inputs used by witnesses and counterexamples. -/

/-- The fenced JSON sample of spec section 8. -/
def fencedSample : List Char := "\x60\x60\x60json\n\x7b\"a\":1\x7d\n\x60\x60\x60".toList

/-- The expected cleaned payload for fencedSample. -/
def cleanSample : List Char := "\x7b\"a\":1\x7d".toList

/-- The request body of spec section 8's end-to-end scenario. -/
def reqSample : TrailRequest :=
  ⟨"2km".toList, "nature".toList, 37.5665, 126.9780⟩

/-- A deterministic stubbed trail name (already trimmed). -/
def nameStub : List Char := "2km Nature Trail at Olympic Park".toList

/-- Stubbed waypoint labels. -/
def labelA : List Char := "Olympic Park Peace Gate, Seoul, South Korea".toList

/-- Stubbed waypoint labels. -/
def labelB : List Char := "Olympic Park Rose Garden, Seoul, South Korea".toList

/-- Stubbed waypoint labels. -/
def labelC : List Char := "Olympic Park Lotus Pond, Seoul, South Korea".toList

/-- The deterministic location every stubbed geocoding call returns. -/
def locStub : List Char → Loc := fun _ => ⟨1, 2⟩

/-- An environment in which every provider succeeds deterministically:
naming yields nameStub, waypoint proposal yields three labels, every
geocoding call resolves to locStub. -/
def envAllOk : Env :=
  ⟨.text nameStub, .text "detail".toList, fun _ => some [],
    .ok "Seoul, South Korea".toList, .text "waypoints".toList,
    fun _ => some [labelA, labelB, labelC], fun _ => .ok ⟨1, 2⟩⟩

/-- envAllOk, except that the naming generation call raises. -/
def envFailName : Env :=
  ⟨.raise, .text "detail".toList, fun _ => some [],
    .ok "Seoul, South Korea".toList, .text "waypoints".toList,
    fun _ => some [labelA, labelB, labelC], fun _ => .ok ⟨1, 2⟩⟩

/-- envAllOk, except that the naming generation call succeeds and its
returned text is exactly the sentinel string. -/
def envSentinelText : Env :=
  ⟨.text sentinel, .text "detail".toList, fun _ => some [],
    .ok "Seoul, South Korea".toList, .text "waypoints".toList,
    fun _ => some [labelA, labelB, labelC], fun _ => .ok ⟨1, 2⟩⟩

/-- envAllOk, except that the naming generation call succeeds with a
whitespace-only candidate text, which strips to the empty string. -/
def envEmptyName : Env :=
  ⟨.text " ".toList, .text "detail".toList, fun _ => some [],
    .ok "Seoul, South Korea".toList, .text "waypoints".toList,
    fun _ => some [labelA, labelB, labelC], fun _ => .ok ⟨1, 2⟩⟩

/-- A geocoding stub that fails (non-OK status) exactly on labelB. -/
def geoFailB : List Char → ApiResult Loc :=
  fun w => if w = labelB then .badStatus else .ok ⟨1, 2⟩

/-- Steps of the stubbed directions response (distinct coordinates). -/
def stepA : Step := ⟨⟨1, 2⟩, ⟨3, 4⟩⟩

/-- Steps of the stubbed directions response (distinct coordinates). -/
def stepB : Step := ⟨⟨5, 6⟩, ⟨7, 8⟩⟩

/-- Steps of the stubbed directions response (distinct coordinates). -/
def stepC : Step := ⟨⟨9, 10⟩, ⟨11, 12⟩⟩

/-- Steps of the stubbed directions response (distinct coordinates). -/
def stepD : Step := ⟨⟨13, 14⟩, ⟨15, 16⟩⟩

/-- The stubbed route with 2 legs of 2 steps each. -/
def routeStub : Route := ⟨[⟨[stepA, stepB]⟩, ⟨[stepC, stepD]⟩]⟩

/-- The stubbed directions response with 2 legs of 2 steps each. -/
def dirStub : DirectionsData := ⟨[routeStub]⟩

/-! Helper lemmas. -/

/-- dropWhile keeps a list whose first element fails the predicate. -/
theorem dropWhile_eq_self_of_head (p : Char → Bool) (l : List Char) (a : Char)
    (hh : l.head? = some a) (hp : p a = false) : l.dropWhile p = l := by
  cases l with
  | nil => rfl
  | cons b bs =>
    simp only [List.head?_cons, Option.some.injEq] at hh
    subst hh
    simp [List.dropWhile, hp]

/-- A list whose head is some a is a :: tail. -/
theorem head_cons_decomp (l : List Char) (a : Char) (h : l.head? = some a) :
    ∃ t, l = a :: t := by
  cases l with
  | nil => simp at h
  | cons b bs =>
    simp only [List.head?_cons, Option.some.injEq] at h
    exact ⟨bs, by rw [h]⟩

/-- pyStrip fixes a text that starts with an opening brace and ends with a
closing brace. -/
theorem pyStrip_fixed (l : List Char)
    (h1 : l.head? = some '\x7b') (h2 : l.getLast? = some '\x7d') :
    pyStrip l = l := by
  unfold pyStrip
  rw [dropWhile_eq_self_of_head isPySpace l _ h1 (by decide)]
  rw [dropWhile_eq_self_of_head isPySpace l.reverse _
        (by rw [List.head?_reverse]; exact h2) (by decide)]
  exact List.reverse_reverse l

/-- stripFences fixes a text that starts with an opening brace and ends
with a closing brace: no fence is present to strip. -/
theorem stripFences_id (l : List Char)
    (h1 : l.head? = some '\x7b') (h2 : l.getLast? = some '\x7d') :
    stripFences l = l := by
  obtain ⟨t1, ht1⟩ := head_cons_decomp l _ h1
  obtain ⟨t2, ht2⟩ := head_cons_decomp l.reverse _
    (by rw [List.head?_reverse]; exact h2)
  have hA : pyStartsWith l fenceJson = false := by
    rw [ht1]; simp [pyStartsWith, fenceJson, List.isPrefixOf]
  have hB : pyStartsWith l fence = false := by
    rw [ht1]; simp [pyStartsWith, fence, List.isPrefixOf]
  have hC : pyEndsWith l fence = false := by
    unfold pyEndsWith
    rw [ht2]; simp [fence, List.isPrefixOf]
  simp [stripFences, hA, hB, hC]

/-- sliceBraces fixes a text that starts with an opening brace and ends
with a closing brace. -/
theorem sliceBraces_fixed (l : List Char)
    (h1 : l.head? = some '\x7b') (h2 : l.getLast? = some '\x7d') :
    sliceBraces l = l := by
  obtain ⟨t1, ht1⟩ := head_cons_decomp l _ h1
  obtain ⟨t2, ht2⟩ := head_cons_decomp l.reverse _
    (by rw [List.head?_reverse]; exact h2)
  have hf : findFirst isLB l = some 0 := by
    rw [ht1]; simp [findFirst, isLB]
  have hr : rfindLast isRB l = some (l.length - 1) := by
    unfold rfindLast
    rw [ht2]
    simp [findFirst, isRB]
  have hlen : 1 ≤ l.length := by rw [ht1]; simp
  simp only [sliceBraces, hf, hr, List.drop_zero, Nat.sub_zero]
  rw [show l.length - 1 + 1 = l.length by omega, List.take_length]

/-- clean_json_response fixes a text that starts with an opening brace and
ends with a closing brace. -/
theorem clean_fixed (l : List Char)
    (h1 : l.head? = some '\x7b') (h2 : l.getLast? = some '\x7d') :
    clean_json_response l = l := by
  unfold clean_json_response
  rw [stripFences_id l h1 h2, sliceBraces_fixed l h1 h2]
  exact pyStrip_fixed l h1 h2

/-- A successful findFirst splits the list at the found position. -/
theorem findFirst_decomp (p : Char → Bool) (l : List Char) (i : Nat)
    (h : findFirst p l = some i) :
    ∃ pre c post, l = pre ++ c :: post ∧ pre.length = i ∧ p c = true := by
  induction l generalizing i with
  | nil => simp [findFirst] at h
  | cons a as ih =>
    by_cases hp : p a
    · rw [findFirst, if_pos hp] at h
      exact ⟨[], a, as, by simp, Option.some.inj h, hp⟩
    · rw [findFirst, if_neg hp] at h
      cases hj : findFirst p as with
      | none => rw [hj] at h; simp at h
      | some j =>
        rw [hj] at h
        have h' : j + 1 = i := Option.some.inj h
        obtain ⟨pre, c, post, hsplit, hlen, hc⟩ := ih j hj
        exact ⟨a :: pre, c, post, by rw [hsplit]; rfl, by simp [hlen, ← h'], hc⟩

/-- A successful rfindLast splits the list at the found position. -/
theorem rfindLast_decomp (p : Char → Bool) (l : List Char) (j : Nat)
    (h : rfindLast p l = some j) :
    ∃ pre c post, l = pre ++ c :: post ∧ pre.length = j ∧ p c = true := by
  unfold rfindLast at h
  cases hk : findFirst p l.reverse with
  | none => rw [hk] at h; simp at h
  | some k =>
    rw [hk] at h
    have h' : l.length - 1 - k = j := Option.some.inj h
    obtain ⟨pre, c, post, hsplit, hlen, hc⟩ := findFirst_decomp p l.reverse k hk
    have hl : l = post.reverse ++ c :: pre.reverse := by
      have := congrArg List.reverse hsplit
      rw [List.reverse_reverse] at this
      rw [this]
      simp
    have hlen' : l.length = pre.length + 1 + post.length := by
      have := congrArg List.length hsplit
      simp at this
      omega
    refine ⟨post.reverse, c, pre.reverse, hl, ?_, hc⟩
    simp only [List.length_reverse]
    omega

/-- The slice taken by a found brace pair starts with the opening brace
and ends with the closing brace. -/
theorem sliceBraces_head_last (t : List Char) (s e : Nat)
    (hs : findFirst isLB t = some s) (he : rfindLast isRB t = some e)
    (hse : s ≤ e) :
    (sliceBraces t).head? = some '\x7b' ∧
    (sliceBraces t).getLast? = some '\x7d' := by
  obtain ⟨pre1, c1, post1, ht1, hlen1, hc1⟩ := findFirst_decomp _ _ _ hs
  obtain ⟨pre2, c2, post2, ht2, hlen2, hc2⟩ := rfindLast_decomp _ _ _ he
  have hc1' : c1 = '\x7b' := by
    have := of_decide_eq_true (by simpa [isLB] using hc1)
    exact this
  have hc2' : c2 = '\x7d' := by
    have := of_decide_eq_true (by simpa [isRB] using hc2)
    exact this
  have hslice : sliceBraces t = (t.drop s).take (e + 1 - s) := by
    unfold sliceBraces
    rw [hs, he]
  have hdrop : t.drop s = c1 :: post1 := by
    rw [ht1, ← hlen1]
    exact List.drop_left pre1 (c1 :: post1)
  have hElen : e < t.length := by
    have := congrArg List.length ht2
    simp at this
    omega
  constructor
  · rw [hslice, hdrop, show e + 1 - s = (e - s) + 1 by omega]
    simp [hc1']
  · rw [hslice, show (t.drop s).take (e + 1 - s) = (t.take (e + 1)).drop s by
      rw [List.take_drop, show s + (e + 1 - s) = e + 1 by omega]]
    have htake : t.take (e + 1) = pre2 ++ [c2] := by
      rw [ht2, List.take_append_eq_append_take,
        List.take_of_length_le (by omega),
        show e + 1 - pre2.length = 1 by omega]
      simp
    rw [htake, List.drop_append_eq_append_drop,
      show s - pre2.length = 0 by omega]
    simp [hc2']

/-- Claim C8: clean_json_response is idempotent on any text that, once its
fences are stripped, still contains an opening brace at or before its last
closing brace (in particular on any text containing a well-formed JSON
object possibly wrapped in triple-backtick fences):
clean_json_response (clean_json_response x) = clean_json_response x. -/
theorem C8_clean_idempotent (x : List Char) (s e : Nat)
    (hs : findFirst isLB (stripFences x) = some s)
    (he : rfindLast isRB (stripFences x) = some e)
    (hse : s ≤ e) :
    clean_json_response (clean_json_response x) = clean_json_response x := by
  obtain ⟨hh, hl⟩ := sliceBraces_head_last (stripFences x) s e hs he hse
  have hclean : clean_json_response x = sliceBraces (stripFences x) := by
    unfold clean_json_response
    exact pyStrip_fixed _ hh hl
  rw [hclean]
  exact clean_fixed _ hh hl

/-- Witness for C8 at the fenced sample of spec section 8. -/
theorem C8_clean_idempotent_witness :
    clean_json_response (clean_json_response fencedSample) =
      clean_json_response fencedSample :=
  C8_clean_idempotent fencedSample 1 7 (by decide) (by decide) (by decide)

/-- Claim C9: clean_json_response strips the fences and then (a) applied
to the fenced sample yields exactly the brace-delimited payload, (b) when
no brace pair is found it returns the fence-stripped text trimmed and
otherwise unchanged, and (c) when a first opening brace and last closing
brace are found it returns the trimmed slice from the former to the
latter inclusive. -/
theorem C9_clean_shape :
    clean_json_response fencedSample = cleanSample ∧
    (∀ t : List Char,
      (findFirst isLB (stripFences t) = none ∨
        rfindLast isRB (stripFences t) = none) →
      clean_json_response t = pyStrip (stripFences t)) ∧
    (∀ t : List Char, ∀ s e : Nat,
      findFirst isLB (stripFences t) = some s →
      rfindLast isRB (stripFences t) = some e →
      clean_json_response t =
        pyStrip (((stripFences t).drop s).take (e + 1 - s))) := by
  refine ⟨by decide, ?_, ?_⟩
  · intro t h
    unfold clean_json_response sliceBraces
    rcases h with h | h
    · rw [h]
    · rw [h]
      cases findFirst isLB (stripFences t) <;> rfl
  · intro t s e hs he
    unfold clean_json_response sliceBraces
    rw [hs, he]

/-- Witness for C9's conditional clauses: a braceless text is returned
trimmed and unchanged, and the fenced sample is sliced at its brace
pair. -/
theorem C9_clean_shape_witness :
    clean_json_response ("abc".toList) = pyStrip (stripFences "abc".toList) ∧
    clean_json_response fencedSample =
      pyStrip (((stripFences fencedSample).drop 1).take (7 + 1 - 1)) :=
  ⟨C9_clean_shape.2.1 ("abc".toList) (by decide),
    C9_clean_shape.2.2 fencedSample 1 7 (by decide) (by decide)⟩

/-- Claim C1: whenever the naming stage returns the sentinel string, the
pipeline returns the error-shaped result, and its full call trace is the
single naming generation call: the detail, waypoint and geocoding stages
are never invoked. -/
theorem C1_sentinel_aborts (env : Env) (req : TrailRequest)
    (h : get_trail_name_from_gemini req.distance req.theme req.latitude
      req.longitude env.nameGen = sentinel) :
    recommend_trail env req = (.ok (.error errorMsg), [.genName]) := by
  simp [recommend_trail, h]

/-- Witness for C1: the naming call raises, the pipeline returns the
error dict after a single generation call. -/
theorem C1_sentinel_aborts_witness :
    recommend_trail envFailName reqSample = (.ok (.error errorMsg), [.genName]) :=
  C1_sentinel_aborts envFailName reqSample rfl

/-- Claim C10: the pipeline's failure check is plain string equality
against the sentinel, so a successful generation whose returned trail
name is exactly "Recommendation failed" yields the error-shaped result,
indistinguishable from a genuine naming failure: the run on
envSentinelText (a successful .text response) returns the same value,
result and trace, as the run on envFailName (a raised provider error). -/
theorem C10_sentinel_collision :
    envSentinelText.nameGen = .text sentinel ∧
    recommend_trail envSentinelText reqSample = (.ok (.error errorMsg), [.genName]) ∧
    recommend_trail envSentinelText reqSample = recommend_trail envFailName reqSample :=
  ⟨rfl, rfl, rfl⟩

/-- When every label geocodes OK, the batch yields exactly one (lng, lat)
pair per label, in input order. -/
theorem geocodeBatch_all_ok (g : List Char → ApiResult Loc)
    (loc : List Char → Loc) (ws : List (List Char))
    (h : ∀ w ∈ ws, g w = .ok (loc w)) :
    (geocodeBatch g ws).1 =
      some (ws.map (fun w => ((loc w).lng, (loc w).lat))) := by
  induction ws with
  | nil => rfl
  | cons w ws ih =>
    have hw : g w = .ok (loc w) := h w (List.mem_cons_self w ws)
    have ih' := ih (fun x hx => h x (List.mem_cons_of_mem w hx))
    simp [geocodeBatch, hw, ih']

/-- Claim C2, amended: when naming, waypoint proposal and every geocoding
call succeed deterministically, the pipeline's result carries the naming
stage's output as route_name and one (lng, lat) pair per stubbed waypoint
label, so the coordinates length equals the number of waypoint labels -
not any directions step count, since the pipeline never issues a
directions request. -/
theorem C2_geocode_count (env : Env) (req : TrailRequest) (n wt : List Char)
    (ws : List (List Char)) (loc : List Char → Loc)
    (hn : env.nameGen = .text n)
    (hns : pyStrip n ≠ sentinel)
    (hwg : env.waypointsGen = .text wt)
    (hwp : env.waypointsParse (clean_json_response wt) = some ws)
    (hg : ∀ w ∈ ws, env.geocode w = .ok (loc w)) :
    (recommend_trail env req).1 =
      .ok (.result (pyStrip n) (ws.map (fun w => ((loc w).lng, (loc w).lat)))) ∧
    (ws.map (fun w => ((loc w).lng, (loc w).lat))).length = ws.length := by
  constructor
  · have hb := geocodeBatch_all_ok env.geocode loc ws hg
    simp [recommend_trail, get_trail_name_from_gemini, hn, hns,
      get_trail_waypoints_from_gemini, hwg, hwp,
      get_coordinates_for_waypoints, hb]
  · simp

/-- Witness for C2's amended theorem at the all-success environment. -/
theorem C2_geocode_count_witness :
    (recommend_trail envAllOk reqSample).1 =
      .ok (.result (pyStrip nameStub)
        ([labelA, labelB, labelC].map (fun w => ((locStub w).lng, (locStub w).lat)))) ∧
    ([labelA, labelB, labelC].map
      (fun w => ((locStub w).lng, (locStub w).lat))).length =
      ([labelA, labelB, labelC] : List (List Char)).length :=
  C2_geocode_count envAllOk reqSample nameStub "waypoints".toList
    [labelA, labelB, labelC] locStub rfl (by decide) rfl rfl (fun w hw => rfl)

/-- Counterexample to C2 as stated: in the all-success run the pipeline
returns 3 coordinates - one per stubbed waypoint label - while the
stubbed directions response has 4 steps (and 6 flattened coordinates),
and the pipeline's call trace contains no directions call at all. -/
theorem C2_counterexample :
    (recommend_trail envAllOk reqSample).1 =
      .ok (.result nameStub [(2, 1), (2, 1), (2, 1)]) ∧
    specStepCount dirStub = 4 ∧
    (specFlattenLegs routeStub.legs).length = 6 ∧
    ((3 : Nat) ≠ 4 ∧ (3 : Nat) ≠ 6) ∧
    ProviderCall.directionsCall ∉ (recommend_trail envAllOk reqSample).2 := by
  exact ⟨rfl, rfl, rfl, by decide, by decide⟩

/-- Claim C3, amended: if the naming stage does not return the sentinel,
then either the pipeline returns a result whose route_name is verbatim
the naming stage's output (possibly empty, when the naming output is
empty), or the waypoints stage crashes on an uncaught exception and no
result is returned at all. -/
theorem C3_route_name_verbatim (env : Env) (req : TrailRequest)
    (h : get_trail_name_from_gemini req.distance req.theme req.latitude
      req.longitude env.nameGen ≠ sentinel) :
    (∃ cs, (recommend_trail env req).1 =
      .ok (.result (get_trail_name_from_gemini req.distance req.theme
        req.latitude req.longitude env.nameGen) cs)) ∨
    (recommend_trail env req).1 = .error .crash := by
  cases hw : env.waypointsGen with
  | raise =>
    right
    simp [recommend_trail, h, get_trail_waypoints_from_gemini, hw]
  | text t =>
    left
    refine ⟨(get_coordinates_for_waypoints env.geocode
      ((env.waypointsParse (clean_json_response t)).getD [])).1, ?_⟩
    simp [recommend_trail, h, get_trail_waypoints_from_gemini, hw]

/-- Witness for C3's amended theorem at the all-success environment. -/
theorem C3_route_name_verbatim_witness :
    (∃ cs, (recommend_trail envAllOk reqSample).1 =
      .ok (.result (get_trail_name_from_gemini reqSample.distance
        reqSample.theme reqSample.latitude reqSample.longitude
        envAllOk.nameGen) cs)) ∨
    (recommend_trail envAllOk reqSample).1 = .error .crash :=
  C3_route_name_verbatim envAllOk reqSample (by decide)

/-- Counterexample to C3 as stated: a whitespace-only (successful) naming
response strips to the empty string, which is not the sentinel, yet the
returned route_name is empty - the claimed non-emptiness fails. -/
theorem C3_counterexample :
    get_trail_name_from_gemini reqSample.distance reqSample.theme
      reqSample.latitude reqSample.longitude envEmptyName.nameGen = [] ∧
    ([] : List Char) ≠ sentinel ∧
    (recommend_trail envEmptyName reqSample).1 =
      .ok (.result [] [(2, 1), (2, 1), (2, 1)]) :=
  ⟨rfl, by decide, rfl⟩

/-- When every leg has at least one step, the source flattening loop
agrees with the spec-worded flattening. -/
theorem flattenLegs_eq_spec (legs : List Leg)
    (h : ∀ leg ∈ legs, leg.steps ≠ []) :
    flattenLegs legs = some (specFlattenLegs legs) := by
  induction legs with
  | nil => rfl
  | cons leg rest ih =>
    obtain ⟨last, hlast⟩ : ∃ l, leg.steps.getLast? = some l := by
      cases hgl : leg.steps.getLast? with
      | none =>
        exact absurd (List.getLast?_eq_none_iff.mp hgl)
          (h leg (List.mem_cons_self leg rest))
      | some l => exact ⟨l, rfl⟩
    have ih' := ih (fun x hx => h x (List.mem_cons_of_mem leg hx))
    rw [flattenLegs, hlast, ih']
    simp [specFlattenLegs, hlast]

/-- Claim C4: for a success-status directions response whose first route's
legs each contain at least one step, the resolver (given at least two
waypoints and a passing key verification) returns exactly the spec
flattening: per leg, every step's start coordinate as (lng, lat), then
the leg's final end coordinate once, concatenated across legs in order. -/
theorem C4_flatten_legs (waypoints : List (List Char)) (d : DirectionsData)
    (r : Route) (rest : List Route)
    (hroutes : d.routes = r :: rest)
    (hne : ∀ leg ∈ r.legs, leg.steps ≠ [])
    (hlen : 2 ≤ waypoints.length) :
    (get_directions_coordinates_from_waypoints (.ok ()) (.ok d) waypoints).1 =
      specFlattenLegs r.legs := by
  unfold get_directions_coordinates_from_waypoints
  rw [if_neg (by omega)]
  simp [flattenDirections, hroutes, flattenLegs_eq_spec r.legs hne]

/-- Witness for C4 at the 2-leg, 2-step stub: exactly 6 coordinates, in
(lng, lat) order. -/
theorem C4_flatten_legs_witness :
    (get_directions_coordinates_from_waypoints (.ok ()) (.ok dirStub)
      [labelA, labelB]).1 = specFlattenLegs routeStub.legs ∧
    specFlattenLegs routeStub.legs =
      [(2, 1), (6, 5), (8, 7), (10, 9), (14, 13), (16, 15)] ∧
    (specFlattenLegs routeStub.legs).length = 6 :=
  ⟨C4_flatten_legs [labelA, labelB] dirStub routeStub [] rfl (by decide)
    (by decide), by decide, by decide⟩

/-- If some label in the batch fails to geocode, the whole batch is
aborted. -/
theorem geocodeBatch_fail (g : List Char → ApiResult Loc)
    (ws : List (List Char)) (w : List Char)
    (hmem : w ∈ ws) (hfail : ∀ loc, g w ≠ .ok loc) :
    (geocodeBatch g ws).1 = none := by
  induction ws with
  | nil => simp at hmem
  | cons a as ih =>
    cases hga : g a with
    | ok loc =>
      have hne : w ≠ a := fun he => hfail loc (he ▸ hga)
      have hmem' : w ∈ as := by
        rcases List.mem_cons.mp hmem with h | h
        · exact absurd h hne
        · exact h
      simp [geocodeBatch, hga, ih hmem']
    | badStatus => simp [geocodeBatch, hga]
    | reqError => simp [geocodeBatch, hga]

/-- Claim C5: if geocoding any single label of the list fails (non-OK
status or raised request error), the batch returns the empty sequence,
never a partial one. -/
theorem C5_geocode_failfast (g : List Char → ApiResult Loc)
    (ws : List (List Char)) (w : List Char)
    (hmem : w ∈ ws) (hfail : ∀ loc, g w ≠ .ok loc) :
    (get_coordinates_for_waypoints g ws).1 = [] := by
  unfold get_coordinates_for_waypoints
  rw [geocodeBatch_fail g ws w hmem hfail]
  rfl

/-- Witness for C5: three labels whose second fails geocoding yield the
empty sequence (and the third label is never requested). -/
theorem C5_geocode_failfast_witness :
    (get_coordinates_for_waypoints geoFailB [labelA, labelB, labelC]).1 = [] ∧
    (get_coordinates_for_waypoints geoFailB [labelA, labelB, labelC]).2 =
      [.fwdGeocode labelA, .fwdGeocode labelB] :=
  ⟨C5_geocode_failfast geoFailB [labelA, labelB, labelC] labelB (by decide)
    (fun loc h => by rw [show geoFailB labelB = .badStatus by decide] at h; cases h),
    by decide⟩

/-- Claim C6: fewer than 2 waypoints make the directions resolver return
the empty sequence with an empty call trace: neither the key-verification
request nor the directions request is issued. -/
theorem C6_short_waypoints (keyVerify : ApiResult Unit)
    (directions : ApiResult DirectionsData) (waypoints : List (List Char))
    (h : waypoints.length < 2) :
    get_directions_coordinates_from_waypoints keyVerify directions waypoints =
      ([], []) := by
  unfold get_directions_coordinates_from_waypoints
  rw [if_pos h]

/-- Witness for C6 on a single waypoint. -/
theorem C6_short_waypoints_witness :
    get_directions_coordinates_from_waypoints .badStatus .badStatus [labelA] =
      ([], []) :=
  C6_short_waypoints .badStatus .badStatus [labelA] (by decide)

/-- Claim C7: with at least 2 waypoints, a failed key verification (non-OK
status or raised request error) makes the resolver return the empty
sequence with only the key-verification call in its trace: the directions
request is never issued. -/
theorem C7_keyverify_failfast (keyVerify : ApiResult Unit)
    (directions : ApiResult DirectionsData) (waypoints : List (List Char))
    (hlen : 2 ≤ waypoints.length)
    (hfail : keyVerify = .badStatus ∨ keyVerify = .reqError) :
    get_directions_coordinates_from_waypoints keyVerify directions waypoints =
      ([], [.keyVerifyCall]) := by
  unfold get_directions_coordinates_from_waypoints
  rw [if_neg (by omega)]
  rcases hfail with rfl | rfl <;> rfl

/-- Witness for C7 on two waypoints and a non-OK key verification. -/
theorem C7_keyverify_failfast_witness :
    get_directions_coordinates_from_waypoints .badStatus (.ok dirStub)
      [labelA, labelB] = ([], [.keyVerifyCall]) :=
  C7_keyverify_failfast .badStatus (.ok dirStub) [labelA, labelB]
    (by decide) (Or.inl rfl)
